import Mathlib

/-!
Verification of the SIDER parameter-block codec.

The repository source (src/sider-parm-block.h) declares the 256-byte
on-disk parameter block as a C struct with documented byte offsets,
endianness and XOR obfuscation.  The codec operations decode/encode are
specified in the design document; they are embedded here field by field
against the layout of the header.
-/

set_option maxRecDepth 200000

namespace Sider

/-- Byte at index i of a buffer (0 when out of range). -/
def byteAt (b : List Nat) (i : Nat) : Nat := b.getD i 0

/-- The n bytes starting at offset o. -/
def sliceAt (b : List Nat) (o n : Nat) : List Nat := (b.drop o).take n

/-- Big-endian 16-bit read at offset o (high byte first). -/
def be16at (b : List Nat) (o : Nat) : Nat := byteAt b o * 256 + byteAt b (o + 1)

/-- Little-endian 16-bit read at offset o (low byte first). -/
def le16at (b : List Nat) (o : Nat) : Nat := byteAt b o + byteAt b (o + 1) * 256

/-- Big-endian 16-bit write (high byte first). -/
def be16bytes (v : Nat) : List Nat := [v / 256 % 256, v % 256]

/-- Little-endian 16-bit write (low byte first). -/
def le16bytes (v : Nat) : List Nat := [v % 256, v / 256 % 256]

/-- The decoded parameter block: struct siderParms of src/sider-parm-block.h.
Multi-byte integers are held as Nat; opaque byte regions and the raw date
text fields are held as byte lists.  The two XOR-obfuscated fields
(smallVolumesXor, xor3233) hold the logical (unmasked) value.
cpmVol4online (declared uint7 in the header) is treated as a full 8-bit
byte, per the design note. -/
structure SiderParms where
  dosSmallVolumes : Nat
  smallVolumesXor : Nat
  interleave : Nat
  reserved : List Nat
  dosVolumes : Nat
  reserved2 : List Nat
  xor3233 : Nat
  cylinders : Nat
  heads : Nat
  reducedWriteCylinders : Nat
  precompCylinders : Nat
  maxECCDataBurst : Nat
  controlByte : Nat
  reserved3 : List Nat
  cpmA : List Nat
  cpmAsize : Nat
  cpmA2 : List Nat
  cpmAstart : Nat
  cpmB : List Nat
  cpmBsize : Nat
  cpmB2 : List Nat
  cpmBstart : Nat
  cpmVol1online : Nat
  cpmVol2online : Nat
  reserved4 : List Nat
  pascalUnit1 : Nat
  pascal1Start : Nat
  pascal2Start : Nat
  reserved5 : List Nat
  installDate : List Nat
  modifiedDate : List Nat
  lastBackupDate : List Nat
  reserved6 : List Nat
  cpmC : List Nat
  cpmCsize : Nat
  cpmC2 : List Nat
  cpmCstart : Nat
  cpmD : List Nat
  cpmDsize : Nat
  cpmD2 : List Nat
  cpmDstart : Nat
  cpmVol3online : Nat
  cpmVol4online : Nat
  reserved7 : List Nat
  prodos1Start : Nat
  prodos1Size : Nat
  prodosVol1Status : Nat
  prodos2Start : Nat
  prodos2Size : Nat
  prodosVol2Status : Nat
  pascalUnit2 : Nat
  pascal3Start : Nat
  pascal4Start : Nat
  reserved8 : List Nat
  altTracksAvail : Nat
deriving DecidableEq, Repr

/-- Modelled from the spec: the decode pass of ParameterBlockCodec, whose
implementation is not part of the repository sources (only the struct
layout header is).  Reads every field of struct siderParms at its
documented offset, endianness and obfuscation: XOR-masked bytes at
offsets 1 and 24 are unmasked with 0xA5, cylinders / reducedWriteCylinders
/ precompCylinders are big-endian, all partition size/start fields are
little-endian, reserved regions and date text are copied verbatim. -/
def decodeBlock (b : List Nat) : SiderParms where
  dosSmallVolumes := byteAt b 0
  smallVolumesXor := byteAt b 1 ^^^ 165
  interleave := byteAt b 2
  reserved := sliceAt b 3 1
  dosVolumes := byteAt b 4
  reserved2 := sliceAt b 5 19
  xor3233 := byteAt b 24 ^^^ 165
  cylinders := be16at b 25
  heads := byteAt b 27
  reducedWriteCylinders := be16at b 28
  precompCylinders := be16at b 30
  maxECCDataBurst := byteAt b 32
  controlByte := byteAt b 33
  reserved3 := sliceAt b 34 7
  cpmA := sliceAt b 41 5
  cpmAsize := le16at b 46
  cpmA2 := sliceAt b 48 6
  cpmAstart := le16at b 54
  cpmB := sliceAt b 56 5
  cpmBsize := le16at b 61
  cpmB2 := sliceAt b 63 6
  cpmBstart := le16at b 69
  cpmVol1online := byteAt b 71
  cpmVol2online := byteAt b 72
  reserved4 := sliceAt b 73 7
  pascalUnit1 := byteAt b 80
  pascal1Start := le16at b 81
  pascal2Start := le16at b 83
  reserved5 := sliceAt b 85 15
  installDate := sliceAt b 100 8
  modifiedDate := sliceAt b 108 8
  lastBackupDate := sliceAt b 116 8
  reserved6 := sliceAt b 124 6
  cpmC := sliceAt b 130 5
  cpmCsize := le16at b 135
  cpmC2 := sliceAt b 137 6
  cpmCstart := le16at b 143
  cpmD := sliceAt b 145 5
  cpmDsize := le16at b 150
  cpmD2 := sliceAt b 152 6
  cpmDstart := le16at b 158
  cpmVol3online := byteAt b 160
  cpmVol4online := byteAt b 161
  reserved7 := sliceAt b 162 1
  prodos1Start := le16at b 163
  prodos1Size := le16at b 165
  prodosVol1Status := byteAt b 167
  prodos2Start := le16at b 168
  prodos2Size := le16at b 170
  prodosVol2Status := byteAt b 172
  pascalUnit2 := byteAt b 173
  pascal3Start := le16at b 174
  pascal4Start := le16at b 176
  reserved8 := sliceAt b 178 77
  altTracksAvail := byteAt b 255

/-- Modelled from the spec: the encode pass of ParameterBlockCodec, whose
implementation is not part of the repository sources.  Writes every field
back at its fixed offset and width, re-applies the XOR 0xA5 mask to the
two obfuscated fields and copies reserved regions verbatim. -/
def encodeBlock (p : SiderParms) : List Nat :=
  [p.dosSmallVolumes] ++ [p.smallVolumesXor ^^^ 165] ++ [p.interleave] ++
  p.reserved ++ [p.dosVolumes] ++ p.reserved2 ++ [p.xor3233 ^^^ 165] ++
  be16bytes p.cylinders ++ [p.heads] ++ be16bytes p.reducedWriteCylinders ++
  be16bytes p.precompCylinders ++ [p.maxECCDataBurst] ++ [p.controlByte] ++
  p.reserved3 ++ p.cpmA ++ le16bytes p.cpmAsize ++ p.cpmA2 ++
  le16bytes p.cpmAstart ++ p.cpmB ++ le16bytes p.cpmBsize ++ p.cpmB2 ++
  le16bytes p.cpmBstart ++ [p.cpmVol1online] ++ [p.cpmVol2online] ++
  p.reserved4 ++ [p.pascalUnit1] ++ le16bytes p.pascal1Start ++
  le16bytes p.pascal2Start ++ p.reserved5 ++ p.installDate ++
  p.modifiedDate ++ p.lastBackupDate ++ p.reserved6 ++ p.cpmC ++
  le16bytes p.cpmCsize ++ p.cpmC2 ++ le16bytes p.cpmCstart ++ p.cpmD ++
  le16bytes p.cpmDsize ++ p.cpmD2 ++ le16bytes p.cpmDstart ++
  [p.cpmVol3online] ++ [p.cpmVol4online] ++ p.reserved7 ++
  le16bytes p.prodos1Start ++ le16bytes p.prodos1Size ++
  [p.prodosVol1Status] ++ le16bytes p.prodos2Start ++
  le16bytes p.prodos2Size ++ [p.prodosVol2Status] ++ [p.pascalUnit2] ++
  le16bytes p.pascal3Start ++ le16bytes p.pascal4Start ++ p.reserved8 ++
  [p.altTracksAvail]

/-- The only error of the codec layer. -/
inductive DecodeError where
  | LengthError
deriving DecidableEq, Repr

/-- Modelled from the spec: decode checks the length precondition and
otherwise materializes the whole record in one pass. -/
def decode (b : List Nat) : Except DecodeError SiderParms :=
  if b.length = 256 then .ok (decodeBlock b) else .error .LengthError

/-- A buffer is well formed when it has exactly 256 bytes, each below 256. -/
def WFBuf (b : List Nat) : Prop := b.length = 256 ∧ ∀ x ∈ b, x < 256

/-- Structural well-formedness of a block: every byte-list field has the
fixed length the struct layout assigns to it. -/
def WFBlock (p : SiderParms) : Prop :=
  p.reserved.length = 1 ∧ p.reserved2.length = 19 ∧ p.reserved3.length = 7 ∧
  p.cpmA.length = 5 ∧ p.cpmA2.length = 6 ∧ p.cpmB.length = 5 ∧
  p.cpmB2.length = 6 ∧ p.reserved4.length = 7 ∧ p.reserved5.length = 15 ∧
  p.installDate.length = 8 ∧ p.modifiedDate.length = 8 ∧
  p.lastBackupDate.length = 8 ∧ p.reserved6.length = 6 ∧
  p.cpmC.length = 5 ∧ p.cpmC2.length = 6 ∧ p.cpmD.length = 5 ∧
  p.cpmD2.length = 6 ∧ p.reserved7.length = 1 ∧ p.reserved8.length = 77

/-- The field table of struct siderParms: (offset, width) of every field,
in declaration order, as documented in src/sider-parm-block.h. -/
def siderLayout : List (Nat × Nat) :=
  [(0, 1), (1, 1), (2, 1), (3, 1), (4, 1), (5, 19), (24, 1), (25, 2),
   (27, 1), (28, 2), (30, 2), (32, 1), (33, 1), (34, 7), (41, 5), (46, 2),
   (48, 6), (54, 2), (56, 5), (61, 2), (63, 6), (69, 2), (71, 1), (72, 1),
   (73, 7), (80, 1), (81, 2), (83, 2), (85, 15), (100, 8), (108, 8),
   (116, 8), (124, 6), (130, 5), (135, 2), (137, 6), (143, 2), (145, 5),
   (150, 2), (152, 6), (158, 2), (160, 1), (161, 1), (162, 1), (163, 2),
   (165, 2), (167, 1), (168, 2), (170, 2), (172, 1), (173, 1), (174, 2),
   (176, 2), (178, 77), (255, 1)]

/-- The (offset, width) byte ranges of the reserved fields of struct
siderParms: reserved, reserved2, reserved3, reserved4, reserved5,
reserved6, reserved7 and reserved8. -/
def reservedRegions : List (Nat × Nat) :=
  [(3, 1), (5, 19), (34, 7), (73, 7), (85, 15), (124, 6), (162, 1),
   (178, 77)]

/-- Checks that a field table is gap-free and overlap-free: each field
starts exactly where the previous one ended, beginning at k. -/
def contiguousFrom : Nat → List (Nat × Nat) → Bool
  | _, [] => true
  | k, (o, n) :: rest => o == k && contiguousFrom (o + n) rest

/-- The all-zero 256-byte buffer. -/
def zeroBuf : List Nat := List.replicate 256 0

/-- The 256-byte buffer whose byte at index i is i. -/
def rangeBuf : List Nat := List.range 256

/-- The 256-byte buffer of all 0xFF bytes. -/
def onesBuf : List Nat := List.replicate 256 255

/-- Buffer with cylinder-count bytes 0x01 0x2C at offsets 25-26 and CP/M
A-size bytes 0x2C 0x01 at offsets 46-47, zero elsewhere. -/
def endianBuf : List Nat :=
  List.replicate 25 0 ++ [1, 44] ++ List.replicate 19 0 ++ [44, 1] ++
  List.replicate 208 0

/-- endianBuf with both two-byte fields byte-swapped. -/
def endianBufSwapped : List Nat :=
  List.replicate 25 0 ++ [44, 1] ++ List.replicate 19 0 ++ [1, 44] ++
  List.replicate 208 0

/-- Buffer whose XOR-masked byte at offset 1 stores 0xA5, zero elsewhere. -/
def maskBuf : List Nat := 0 :: 165 :: List.replicate 254 0

end Sider

namespace Sider

/-- Unmasking then re-masking with 0xA5 is the identity. -/
theorem xor_unmask (x : Nat) : (x ^^^ 165) ^^^ 165 = x := by
  rw [Nat.xor_assoc, Nat.xor_self, Nat.xor_zero]

/-- Every byte read from a buffer of bytes below 256 is below 256. -/
theorem byteAt_lt (b : List Nat) (hb : ∀ x ∈ b, x < 256) (i : Nat) :
    byteAt b i < 256 := by
  unfold byteAt
  rcases Nat.lt_or_ge i b.length with hi | hi
  · rw [List.getD_eq_getElem b 0 hi]
    exact hb _ (List.getElem_mem hi)
  · rw [List.getD_eq_default b 0 hi]
    omega

/-- A single in-range byte read is the width-1 slice at that offset. -/
theorem byteAt_slice (b : List Nat) (o : Nat) (h : o < b.length) :
    [byteAt b o] = sliceAt b o 1 := by
  unfold byteAt sliceAt
  rw [List.drop_eq_getElem_cons h, List.getD_eq_getElem b 0 h]
  rfl

/-- A width-2 slice is the pair of bytes at its offset. -/
theorem slice_two (b : List Nat) (o : Nat) (h : o + 1 < b.length) :
    sliceAt b o 2 = [byteAt b o, byteAt b (o + 1)] := by
  have h0 : o < b.length := by omega
  unfold sliceAt byteAt
  rw [List.drop_eq_getElem_cons h0, List.getD_eq_getElem b 0 h0,
    List.getD_eq_getElem b 0 h, List.drop_eq_getElem_cons h]
  rfl

/-- Writing back a big-endian read of bytes below 256 restores the slice. -/
theorem be16_slice (b : List Nat) (o : Nat) (h : o + 1 < b.length)
    (hb : ∀ x ∈ b, x < 256) : be16bytes (be16at b o) = sliceAt b o 2 := by
  have hhi := byteAt_lt b hb o
  have hlo := byteAt_lt b hb (o + 1)
  rw [slice_two b o h]
  unfold be16bytes be16at
  have e1 : (byteAt b o * 256 + byteAt b (o + 1)) / 256 % 256 = byteAt b o := by
    omega
  have e2 : (byteAt b o * 256 + byteAt b (o + 1)) % 256 = byteAt b (o + 1) := by
    omega
  rw [e1, e2]

/-- Writing back a little-endian read of bytes below 256 restores the slice. -/
theorem le16_slice (b : List Nat) (o : Nat) (h : o + 1 < b.length)
    (hb : ∀ x ∈ b, x < 256) : le16bytes (le16at b o) = sliceAt b o 2 := by
  have hhi := byteAt_lt b hb o
  have hlo := byteAt_lt b hb (o + 1)
  rw [slice_two b o h]
  unfold le16bytes le16at
  have e1 : (byteAt b o + byteAt b (o + 1) * 256) % 256 = byteAt b o := by
    omega
  have e2 : (byteAt b o + byteAt b (o + 1) * 256) / 256 % 256 = byteAt b (o + 1) := by
    omega
  rw [e1, e2]

/-- Adjacent slices concatenate: a slice followed by the rest of the buffer
from its end is the rest of the buffer from its start. -/
theorem slice_chain (b : List Nat) (o n m : Nat) (h : o + n = m) :
    sliceAt b o n ++ b.drop m = b.drop o := by
  subst h
  unfold sliceAt
  rw [← List.drop_drop, List.take_append_drop]

/-- The final width-1 slice of a 256-byte buffer is its last-byte suffix. -/
theorem slice_last (b : List Nat) (h : b.length = 256) :
    sliceAt b 255 1 = b.drop 255 := by
  unfold sliceAt
  apply List.take_of_length_le
  simp [h]

/-- Re-encoding a decoded well-formed 256-byte buffer restores it exactly. -/
theorem encode_decode_id (b : List Nat) (h : b.length = 256)
    (hb : ∀ x ∈ b, x < 256) : encodeBlock (decodeBlock b) = b := by
  simp only [encodeBlock, decodeBlock]
  rw [xor_unmask, xor_unmask]
  rw [byteAt_slice b 0 (by omega),
    byteAt_slice b 1 (by omega),
    byteAt_slice b 2 (by omega),
    byteAt_slice b 4 (by omega),
    byteAt_slice b 24 (by omega),
    be16_slice b 25 (by omega) hb,
    byteAt_slice b 27 (by omega),
    be16_slice b 28 (by omega) hb,
    be16_slice b 30 (by omega) hb,
    byteAt_slice b 32 (by omega),
    byteAt_slice b 33 (by omega),
    le16_slice b 46 (by omega) hb,
    le16_slice b 54 (by omega) hb,
    le16_slice b 61 (by omega) hb,
    le16_slice b 69 (by omega) hb,
    byteAt_slice b 71 (by omega),
    byteAt_slice b 72 (by omega),
    byteAt_slice b 80 (by omega),
    le16_slice b 81 (by omega) hb,
    le16_slice b 83 (by omega) hb,
    le16_slice b 135 (by omega) hb,
    le16_slice b 143 (by omega) hb,
    le16_slice b 150 (by omega) hb,
    le16_slice b 158 (by omega) hb,
    byteAt_slice b 160 (by omega),
    byteAt_slice b 161 (by omega),
    le16_slice b 163 (by omega) hb,
    le16_slice b 165 (by omega) hb,
    byteAt_slice b 167 (by omega),
    le16_slice b 168 (by omega) hb,
    le16_slice b 170 (by omega) hb,
    byteAt_slice b 172 (by omega),
    byteAt_slice b 173 (by omega),
    le16_slice b 174 (by omega) hb,
    le16_slice b 176 (by omega) hb,
    byteAt_slice b 255 (by omega)]
  simp only [List.append_assoc]
  rw [slice_last b h]
  rw [slice_chain b 178 77 255 rfl,
    slice_chain b 176 2 178 rfl,
    slice_chain b 174 2 176 rfl,
    slice_chain b 173 1 174 rfl,
    slice_chain b 172 1 173 rfl,
    slice_chain b 170 2 172 rfl,
    slice_chain b 168 2 170 rfl,
    slice_chain b 167 1 168 rfl,
    slice_chain b 165 2 167 rfl,
    slice_chain b 163 2 165 rfl,
    slice_chain b 162 1 163 rfl,
    slice_chain b 161 1 162 rfl,
    slice_chain b 160 1 161 rfl,
    slice_chain b 158 2 160 rfl,
    slice_chain b 152 6 158 rfl,
    slice_chain b 150 2 152 rfl,
    slice_chain b 145 5 150 rfl,
    slice_chain b 143 2 145 rfl,
    slice_chain b 137 6 143 rfl,
    slice_chain b 135 2 137 rfl,
    slice_chain b 130 5 135 rfl,
    slice_chain b 124 6 130 rfl,
    slice_chain b 116 8 124 rfl,
    slice_chain b 108 8 116 rfl,
    slice_chain b 100 8 108 rfl,
    slice_chain b 85 15 100 rfl,
    slice_chain b 83 2 85 rfl,
    slice_chain b 81 2 83 rfl,
    slice_chain b 80 1 81 rfl,
    slice_chain b 73 7 80 rfl,
    slice_chain b 72 1 73 rfl,
    slice_chain b 71 1 72 rfl,
    slice_chain b 69 2 71 rfl,
    slice_chain b 63 6 69 rfl,
    slice_chain b 61 2 63 rfl,
    slice_chain b 56 5 61 rfl,
    slice_chain b 54 2 56 rfl,
    slice_chain b 48 6 54 rfl,
    slice_chain b 46 2 48 rfl,
    slice_chain b 41 5 46 rfl,
    slice_chain b 34 7 41 rfl,
    slice_chain b 33 1 34 rfl,
    slice_chain b 32 1 33 rfl,
    slice_chain b 30 2 32 rfl,
    slice_chain b 28 2 30 rfl,
    slice_chain b 27 1 28 rfl,
    slice_chain b 25 2 27 rfl,
    slice_chain b 24 1 25 rfl,
    slice_chain b 5 19 24 rfl,
    slice_chain b 4 1 5 rfl,
    slice_chain b 3 1 4 rfl,
    slice_chain b 2 1 3 rfl,
    slice_chain b 1 1 2 rfl,
    slice_chain b 0 1 1 rfl,
    List.drop_zero]

end Sider

namespace Sider

/-- Encoding any block writes the re-masked smallVolumesXor byte at
offset 1. -/
theorem encode_getD_1 (p : SiderParms) :
    (encodeBlock p).getD 1 0 = p.smallVolumesXor ^^^ 165 := by
  simp [encodeBlock]

/-- Encoding a block whose reserved and reserved2 fields have their layout
lengths writes the re-masked xor3233 byte at offset 24. -/
theorem encode_getD_24 (p : SiderParms) (h1 : p.reserved.length = 1)
    (h2 : p.reserved2.length = 19) :
    (encodeBlock p).getD 24 0 = p.xor3233 ^^^ 165 := by
  simp [encodeBlock, List.getElem?_append_right, List.getElem_append_right,
    h1, h2]

/-- Encoding a structurally well-formed block yields exactly 256 bytes. -/
theorem encode_length (p : SiderParms) (hp : WFBlock p) :
    (encodeBlock p).length = 256 := by
  obtain ⟨h1, h2, h3, h4, h5, h6, h7, h8, h9, h10, h11, h12, h13, h14, h15,
    h16, h17, h18, h19⟩ := hp
  simp [encodeBlock, be16bytes, le16bytes, h1, h2, h3, h4, h5, h6, h7, h8,
    h9, h10, h11, h12, h13, h14, h15, h16, h17, h18, h19]

/-- Setting byte 33 leaves the byte read at offset 24 unchanged. -/
theorem byteAt_set_33 (b : List Nat) (v : Nat) :
    byteAt (b.set 33 v) 24 = byteAt b 24 := by
  unfold byteAt
  rw [List.getD_eq_getElem?_getD, List.getD_eq_getElem?_getD,
    List.getElem?_set_ne (by omega)]

end Sider

namespace Sider

/-- Claim C1: for every well-formed 256-byte buffer b, encoding the decoded
ParameterBlock reproduces b byte for byte, including reserved bytes and
the two XOR-obfuscated bytes. -/
theorem sider_C1_roundtrip (b : List Nat) (h : b.length = 256)
    (hb : ∀ x ∈ b, x < 256) : encodeBlock (decodeBlock b) = b :=
  encode_decode_id b h hb

/-- Claim C1 witness at the concrete buffer 0, 1, ..., 255. -/
theorem sider_C1_roundtrip_witness :
    (rangeBuf.length = 256 ∧ ∀ x ∈ rangeBuf, x < 256) ∧
    encodeBlock (decodeBlock rangeBuf) = rangeBuf :=
  ⟨⟨by decide, by decide⟩,
   sider_C1_roundtrip rangeBuf (by decide) (by decide)⟩

/-- Claim C2: decode fails with LengthError exactly when the input length
is not 256; on any 256-byte buffer it succeeds with the fully decoded
block, and LengthError is the only error decode ever returns. -/
theorem sider_C2_length_enforcement (b : List Nat) :
    (decode b = .error .LengthError ↔ b.length ≠ 256) ∧
    (b.length = 256 → decode b = .ok (decodeBlock b)) ∧
    (∀ e, decode b = .error e → e = .LengthError) := by
  refine ⟨?_, ?_, ?_⟩
  · unfold decode
    by_cases h : b.length = 256 <;> simp [h]
  · intro h
    unfold decode
    rw [if_pos h]
  · intro e he
    cases e
    rfl

/-- Claim C2 witness: the all-zero 256-byte buffer decodes successfully
and a 255-byte buffer fails with LengthError. -/
theorem sider_C2_length_enforcement_witness :
    decode zeroBuf = .ok (decodeBlock zeroBuf) ∧
    decode (List.replicate 255 0) = .error .LengthError :=
  ⟨(sider_C2_length_enforcement zeroBuf).2.1 (by decide),
   (sider_C2_length_enforcement (List.replicate 255 0)).1.mpr (by decide)⟩

/-- Claim C3: the cylinder-count, reduced-write-cylinder and
precompensation-cylinder fields decode big-endian from offsets 25-26,
28-29 and 30-31, every CP/M, Pascal and ProDOS partition size/start field
decodes little-endian; bytes 0x01 0x2C at the cylinder offset decode to
300, bytes 0x2C 0x01 at the CP/M A-size offset decode to 300, and
swapping the byte order of either changes the decoded value. -/
theorem sider_C3_endianness :
    (∀ b, (decodeBlock b).cylinders = byteAt b 25 * 256 + byteAt b 26 ∧
      (decodeBlock b).reducedWriteCylinders =
        byteAt b 28 * 256 + byteAt b 29 ∧
      (decodeBlock b).precompCylinders = byteAt b 30 * 256 + byteAt b 31 ∧
      (decodeBlock b).cpmAsize = byteAt b 46 + byteAt b 47 * 256 ∧
      (decodeBlock b).cpmAstart = byteAt b 54 + byteAt b 55 * 256 ∧
      (decodeBlock b).cpmBsize = byteAt b 61 + byteAt b 62 * 256 ∧
      (decodeBlock b).cpmBstart = byteAt b 69 + byteAt b 70 * 256 ∧
      (decodeBlock b).pascal1Start = byteAt b 81 + byteAt b 82 * 256 ∧
      (decodeBlock b).pascal2Start = byteAt b 83 + byteAt b 84 * 256 ∧
      (decodeBlock b).cpmCsize = byteAt b 135 + byteAt b 136 * 256 ∧
      (decodeBlock b).cpmCstart = byteAt b 143 + byteAt b 144 * 256 ∧
      (decodeBlock b).cpmDsize = byteAt b 150 + byteAt b 151 * 256 ∧
      (decodeBlock b).cpmDstart = byteAt b 158 + byteAt b 159 * 256 ∧
      (decodeBlock b).prodos1Start = byteAt b 163 + byteAt b 164 * 256 ∧
      (decodeBlock b).prodos1Size = byteAt b 165 + byteAt b 166 * 256 ∧
      (decodeBlock b).prodos2Start = byteAt b 168 + byteAt b 169 * 256 ∧
      (decodeBlock b).prodos2Size = byteAt b 170 + byteAt b 171 * 256 ∧
      (decodeBlock b).pascal3Start = byteAt b 174 + byteAt b 175 * 256 ∧
      (decodeBlock b).pascal4Start = byteAt b 176 + byteAt b 177 * 256) ∧
    (decodeBlock endianBuf).cylinders = 300 ∧
    (decodeBlock endianBuf).cpmAsize = 300 ∧
    (decodeBlock endianBufSwapped).cylinders = 11265 ∧
    (decodeBlock endianBufSwapped).cpmAsize = 11265 ∧
    (decodeBlock endianBufSwapped).cylinders ≠
      (decodeBlock endianBuf).cylinders ∧
    (decodeBlock endianBufSwapped).cpmAsize ≠
      (decodeBlock endianBuf).cpmAsize := by
  refine ⟨?_, by decide, by decide, by decide, by decide, by decide,
    by decide⟩
  exact fun b => ⟨rfl, rfl, rfl, rfl, rfl, rfl, rfl, rfl, rfl, rfl, rfl,
    rfl, rfl, rfl, rfl, rfl, rfl, rfl, rfl⟩

/-- Claim C4: decode unmasks the stored bytes at offsets 1 and 24 with
XOR 0xA5 unconditionally, and encode re-applies the mask before writing
at those offsets; a stored byte 0xA5 decodes to logical 0, and encoding
logical 0 produces stored byte 0xA5. -/
theorem sider_C4_xor_mask :
    (∀ b, (decodeBlock b).smallVolumesXor = byteAt b 1 ^^^ 165 ∧
      (decodeBlock b).xor3233 = byteAt b 24 ^^^ 165) ∧
    (∀ p : SiderParms,
      (encodeBlock p).getD 1 0 = p.smallVolumesXor ^^^ 165) ∧
    (∀ p : SiderParms, p.reserved.length = 1 → p.reserved2.length = 19 →
      (encodeBlock p).getD 24 0 = p.xor3233 ^^^ 165) ∧
    (decodeBlock maskBuf).smallVolumesXor = 0 ∧
    (encodeBlock (decodeBlock maskBuf)).getD 1 0 = 165 := by
  refine ⟨fun b => ⟨rfl, rfl⟩, fun p => encode_getD_1 p,
    fun p h1 h2 => encode_getD_24 p h1 h2, by decide, by decide⟩

/-- Claim C4 witness: the encode placement at offset 24, applied to the
block decoded from the all-0xFF buffer. -/
theorem sider_C4_xor_mask_witness :
    (encodeBlock (decodeBlock onesBuf)).getD 24 0 =
      (decodeBlock onesBuf).xor3233 ^^^ 165 :=
  sider_C4_xor_mask.2.2.1 (decodeBlock onesBuf) (by decide) (by decide)

end Sider

namespace Sider

/-- Claim C5 counterexample: struct siderParms declares eight reserved
regions (reserved and reserved2 through reserved8), not nine. -/
theorem sider_C5_counterexample :
    reservedRegions.length = 8 ∧ reservedRegions.length ≠ 9 := by decide

/-- Claim C5 (amended): the layout contains eight distinct reserved
regions; decode copies each verbatim into an opaque byte field of the
matching range, and any byte pattern in a reserved region survives
decode followed by encode exactly. -/
theorem sider_C5_reserved_opacity (b : List Nat) (h : b.length = 256)
    (hb : ∀ x ∈ b, x < 256) :
    reservedRegions.length = 8 ∧
    (decodeBlock b).reserved = sliceAt b 3 1 ∧
    (decodeBlock b).reserved2 = sliceAt b 5 19 ∧
    (decodeBlock b).reserved3 = sliceAt b 34 7 ∧
    (decodeBlock b).reserved4 = sliceAt b 73 7 ∧
    (decodeBlock b).reserved5 = sliceAt b 85 15 ∧
    (decodeBlock b).reserved6 = sliceAt b 124 6 ∧
    (decodeBlock b).reserved7 = sliceAt b 162 1 ∧
    (decodeBlock b).reserved8 = sliceAt b 178 77 ∧
    ∀ r ∈ reservedRegions,
      sliceAt (encodeBlock (decodeBlock b)) r.1 r.2 = sliceAt b r.1 r.2 := by
  refine ⟨by decide, rfl, rfl, rfl, rfl, rfl, rfl, rfl, rfl, ?_⟩
  intro r _
  rw [encode_decode_id b h hb]

/-- Claim C5 witness: the all-0xFF pattern in the 77-byte reserved8
region survives decode followed by encode. -/
theorem sider_C5_reserved_opacity_witness :
    sliceAt (encodeBlock (decodeBlock onesBuf)) 178 77 =
      sliceAt onesBuf 178 77 :=
  (sider_C5_reserved_opacity onesBuf (by decide)
    (by decide)).2.2.2.2.2.2.2.2.2 (178, 77) (by decide)

/-- Claim C6: the field table of struct siderParms is gap-free and
overlap-free, its widths sum to exactly 256 bytes, encode produces
exactly 256 bytes for every structurally well-formed block, and decode
succeeds exactly on 256-byte inputs. -/
theorem sider_C6_layout (p : SiderParms) (hp : WFBlock p) :
    contiguousFrom 0 siderLayout = true ∧
    (siderLayout.map Prod.snd).sum = 256 ∧
    (encodeBlock p).length = 256 ∧
    (∀ b, (∃ q, decode b = Except.ok q) ↔ b.length = 256) := by
  refine ⟨by decide, by decide, encode_length p hp, ?_⟩
  intro b
  unfold decode
  by_cases h : b.length = 256 <;> simp [h]

/-- Claim C6 witness at the block decoded from the all-zero buffer. -/
theorem sider_C6_layout_witness :
    (encodeBlock (decodeBlock zeroBuf)).length = 256 :=
  (sider_C6_layout (decodeBlock zeroBuf)
    (by unfold WFBlock; decide)).2.2.1

/-- Claim C7: the cpmVol4online field (declared uint7 in the header) is
decoded as a full 8-bit byte from offset 161, the following fields keep
their unshifted offsets (reserved7 at 162, prodos1Start little-endian at
163-164), and all 8 bits of byte 161 survive decode followed by
encode. -/
theorem sider_C7_uint7_as_byte (b : List Nat) (h : b.length = 256)
    (hb : ∀ x ∈ b, x < 256) :
    (decodeBlock b).cpmVol4online = byteAt b 161 ∧
    (decodeBlock b).reserved7 = sliceAt b 162 1 ∧
    (decodeBlock b).prodos1Start = byteAt b 163 + byteAt b 164 * 256 ∧
    byteAt (encodeBlock (decodeBlock b)) 161 = byteAt b 161 := by
  refine ⟨rfl, rfl, rfl, ?_⟩
  rw [encode_decode_id b h hb]

/-- Claim C7 witness at the buffer 0, 1, ..., 255, whose byte 161 has
value 161. -/
theorem sider_C7_uint7_as_byte_witness :
    (decodeBlock rangeBuf).cpmVol4online = byteAt rangeBuf 161 ∧
    byteAt (encodeBlock (decodeBlock rangeBuf)) 161 = byteAt rangeBuf 161 :=
  ⟨(sider_C7_uint7_as_byte rangeBuf (by decide) (by decide)).1,
   (sider_C7_uint7_as_byte rangeBuf (by decide) (by decide)).2.2.2⟩

/-- Claim C8: decode never cross-checks byte 24 against byte 33: the
decoded xor3233 value is byte 24 XOR 0xA5 whatever byte 33 holds,
overwriting byte 33 never changes it, and decode succeeds on any 256-byte
buffer, in particular on the all-zero buffer where byte 24 differs from
byte 33 XOR 0xA5. -/
theorem sider_C8_no_crosscheck :
    (∀ b, (decodeBlock b).xor3233 = byteAt b 24 ^^^ 165) ∧
    (∀ b v, (decodeBlock (b.set 33 v)).xor3233 = (decodeBlock b).xor3233) ∧
    (∀ b : List Nat, b.length = 256 → decode b = .ok (decodeBlock b)) ∧
    byteAt zeroBuf 24 ≠ byteAt zeroBuf 33 ^^^ 165 ∧
    decode zeroBuf = .ok (decodeBlock zeroBuf) := by
  refine ⟨fun b => rfl, fun b v => ?_, fun b h => ?_, by decide, by rfl⟩
  · show byteAt (b.set 33 v) 24 ^^^ 165 = byteAt b 24 ^^^ 165
    rw [byteAt_set_33]
  · unfold decode
    rw [if_pos h]

/-- Claim C8 witness: decode accepts the buffer 0, 1, ..., 255, where
byte 24 is 24 and byte 33 XOR 0xA5 is 132. -/
theorem sider_C8_no_crosscheck_witness :
    decode rangeBuf = .ok (decodeBlock rangeBuf) :=
  sider_C8_no_crosscheck.2.2.1 rangeBuf (by decide)

/-- Claim C9: re-encoding is idempotent: decoding the bytes encoded from
a decoded well-formed buffer gives the same block, field by field. -/
theorem sider_C9_idempotent (b : List Nat) (h : b.length = 256)
    (hb : ∀ x ∈ b, x < 256) :
    decodeBlock (encodeBlock (decodeBlock b)) = decodeBlock b ∧
    decode (encodeBlock (decodeBlock b)) = decode b := by
  rw [encode_decode_id b h hb]
  exact ⟨rfl, rfl⟩

/-- Claim C9 witness at the all-0xFF buffer. -/
theorem sider_C9_idempotent_witness :
    decodeBlock (encodeBlock (decodeBlock onesBuf)) = decodeBlock onesBuf :=
  (sider_C9_idempotent onesBuf (by decide) (by decide)).1

/-- Claim C10: the all-zero buffer decodes to a block whose integer
fields are all 0, whose two XOR-masked flag fields hold logical 0xA5,
and whose three date fields are 8 null bytes each; re-encoding yields
the all-zero buffer again. -/
theorem sider_C10_all_zero :
    (decodeBlock zeroBuf).dosSmallVolumes = 0 ∧
    (decodeBlock zeroBuf).smallVolumesXor = 165 ∧
    (decodeBlock zeroBuf).interleave = 0 ∧
    (decodeBlock zeroBuf).dosVolumes = 0 ∧
    (decodeBlock zeroBuf).xor3233 = 165 ∧
    (decodeBlock zeroBuf).cylinders = 0 ∧
    (decodeBlock zeroBuf).heads = 0 ∧
    (decodeBlock zeroBuf).reducedWriteCylinders = 0 ∧
    (decodeBlock zeroBuf).precompCylinders = 0 ∧
    (decodeBlock zeroBuf).maxECCDataBurst = 0 ∧
    (decodeBlock zeroBuf).controlByte = 0 ∧
    (decodeBlock zeroBuf).cpmAsize = 0 ∧
    (decodeBlock zeroBuf).cpmAstart = 0 ∧
    (decodeBlock zeroBuf).cpmBsize = 0 ∧
    (decodeBlock zeroBuf).cpmBstart = 0 ∧
    (decodeBlock zeroBuf).cpmVol1online = 0 ∧
    (decodeBlock zeroBuf).cpmVol2online = 0 ∧
    (decodeBlock zeroBuf).pascalUnit1 = 0 ∧
    (decodeBlock zeroBuf).pascal1Start = 0 ∧
    (decodeBlock zeroBuf).pascal2Start = 0 ∧
    (decodeBlock zeroBuf).cpmCsize = 0 ∧
    (decodeBlock zeroBuf).cpmCstart = 0 ∧
    (decodeBlock zeroBuf).cpmDsize = 0 ∧
    (decodeBlock zeroBuf).cpmDstart = 0 ∧
    (decodeBlock zeroBuf).cpmVol3online = 0 ∧
    (decodeBlock zeroBuf).cpmVol4online = 0 ∧
    (decodeBlock zeroBuf).prodos1Start = 0 ∧
    (decodeBlock zeroBuf).prodos1Size = 0 ∧
    (decodeBlock zeroBuf).prodosVol1Status = 0 ∧
    (decodeBlock zeroBuf).prodos2Start = 0 ∧
    (decodeBlock zeroBuf).prodos2Size = 0 ∧
    (decodeBlock zeroBuf).prodosVol2Status = 0 ∧
    (decodeBlock zeroBuf).pascalUnit2 = 0 ∧
    (decodeBlock zeroBuf).pascal3Start = 0 ∧
    (decodeBlock zeroBuf).pascal4Start = 0 ∧
    (decodeBlock zeroBuf).altTracksAvail = 0 ∧
    (decodeBlock zeroBuf).installDate = List.replicate 8 0 ∧
    (decodeBlock zeroBuf).modifiedDate = List.replicate 8 0 ∧
    (decodeBlock zeroBuf).lastBackupDate = List.replicate 8 0 ∧
    encodeBlock (decodeBlock zeroBuf) = zeroBuf := by decide

end Sider
